import Mathlib

/-!
Shallow embedding of `tools/rsr_checker.py` (RSR compliance checker, v2.0).

Pure data and scoring are translated directly: `ComplianceCheck` and
`ComplianceReport` are the two dataclasses; `get_level_score` and
`get_overall_level` are the scoring methods.  Python floats appear only as
`passed / total * 100` percentages of small integer counts, so they are
modelled as exact rationals (`ℚ`): for the comparisons against the literal
thresholds 100 and 66 performed by the code, the rational value and the IEEE
double agree on every count that can arise here.

Filesystem reads and the regex engine are modelled as explicit parameters
(an abstract view of the repository tree plus an abstract search function),
with a fallible read returning `Except`: Python catches every exception from
`Path.read_text` and maps it to a failure detail, which the `Except.error`
branch carries.
-/

namespace RSRChecker

/-- One compliance check (`ComplianceCheck` dataclass): name, description,
level, category, plus `required`, `status`, `details`, `weight` with the
dataclass defaults. -/
structure ComplianceCheck where
  name : String
  description : String
  level : String
  category : String
  required : Bool := true
  status : Bool := false
  details : String := ""
  weight : ℚ := 1
deriving Repr, DecidableEq

/-- Full compliance report (`ComplianceReport` dataclass): one check list per
level. -/
structure ComplianceReport where
  bronze_checks : List ComplianceCheck := []
  silver_checks : List ComplianceCheck := []
  gold_checks : List ComplianceCheck := []
  platinum_checks : List ComplianceCheck := []
deriving Repr, DecidableEq

/-- Python `str.lower()`, character by character.  The program only lowercases
the ASCII level names "Bronze", "Silver", "Gold", "Platinum", on which this
agrees with Python exactly. -/
def pyLower (s : String) : String :=
  String.mk (s.data.map Char.toLower)

/-- The dynamic attribute access `getattr(self, f"{level.lower()}_checks")`
of `get_level_score`.  For the four attribute names that exist the lookup
returns the corresponding list; any other name raises `AttributeError` in
Python and is totalised here to `[]` (the program only ever passes the four
level names). -/
def levelChecks (r : ComplianceReport) (level : String) : List ComplianceCheck :=
  if pyLower level = "bronze" then r.bronze_checks
  else if pyLower level = "silver" then r.silver_checks
  else if pyLower level = "gold" then r.gold_checks
  else if pyLower level = "platinum" then r.platinum_checks
  else []

/-- Body of `get_level_score` as a function of the selected check list:
`passed = sum(1 for c in checks if c.status)`, `total = len(checks)`,
`percentage = passed / total * 100 if total > 0 else 0.0`. -/
def scoreOfChecks (checks : List ComplianceCheck) : ℕ × ℕ × ℚ :=
  let passed := (checks.filter (fun c => c.status)).length
  let total := checks.length
  let percentage := if 0 < total then (passed : ℚ) / (total : ℚ) * 100 else 0
  (passed, total, percentage)

/-- `ComplianceReport.get_level_score(level)`: `(passed, total, percentage)`
for the list selected by `level`. -/
def ComplianceReport.get_level_score (r : ComplianceReport) (level : String) :
    ℕ × ℕ × ℚ :=
  scoreOfChecks (levelChecks r level)

/-- The percentage component of `get_level_score`. -/
def ComplianceReport.levelPct (r : ComplianceReport) (level : String) : ℚ :=
  (r.get_level_score level).2.2

/-- The threshold chain of `get_overall_level` as a function of the four
percentages (the method body below line 55 of the source). -/
def gate (bronze_pct silver_pct gold_pct platinum_pct : ℚ) : String :=
  if bronze_pct < 100 then "Non-compliant"
  else if silver_pct < 100 then "Bronze"
  else if gold_pct < 66 then "Silver"
  else if platinum_pct < 66 then "Gold"
  else "Platinum"

/-- `ComplianceReport.get_overall_level()`: highest compliance level
achieved, via the strict gate over the four level percentages. -/
def ComplianceReport.get_overall_level (r : ComplianceReport) : String :=
  let bronze_pct := (r.get_level_score "Bronze").2.2
  let silver_pct := (r.get_level_score "Silver").2.2
  let gold_pct := (r.get_level_score "Gold").2.2
  let platinum_pct := (r.get_level_score "Platinum").2.2
  if bronze_pct < 100 then "Non-compliant"
  else if silver_pct < 100 then "Bronze"
  else if gold_pct < 66 then "Silver"
  else if platinum_pct < 66 then "Gold"
  else "Platinum"

theorem get_overall_level_eq_gate (r : ComplianceReport) :
    r.get_overall_level =
      gate (r.levelPct "Bronze") (r.levelPct "Silver")
        (r.levelPct "Gold") (r.levelPct "Platinum") := rfl

theorem levelChecks_bronze (r : ComplianceReport) :
    levelChecks r "Bronze" = r.bronze_checks := rfl

theorem levelChecks_silver (r : ComplianceReport) :
    levelChecks r "Silver" = r.silver_checks := rfl

theorem levelChecks_gold (r : ComplianceReport) :
    levelChecks r "Gold" = r.gold_checks := rfl

theorem levelChecks_platinum (r : ComplianceReport) :
    levelChecks r "Platinum" = r.platinum_checks := rfl

theorem scoreOfChecks_passed (l : List ComplianceCheck) :
    (scoreOfChecks l).1 = (l.filter (fun c => c.status)).length := rfl

theorem scoreOfChecks_total (l : List ComplianceCheck) :
    (scoreOfChecks l).2.1 = l.length := rfl

theorem scoreOfChecks_pct (l : List ComplianceCheck) :
    (scoreOfChecks l).2.2 =
      if 0 < l.length then
        (((l.filter (fun c => c.status)).length : ℚ) / (l.length : ℚ)) * 100
      else 0 := rfl

theorem scoreOfChecks_pct_le (l : List ComplianceCheck) :
    (scoreOfChecks l).2.2 ≤ 100 := by
  rw [scoreOfChecks_pct]
  split
  · rename_i h
    have hle : ((l.filter (fun c => c.status)).length : ℚ) ≤ (l.length : ℚ) := by
      exact_mod_cast l.length_filter_le (fun c => c.status)
    have hpos : (0 : ℚ) < (l.length : ℚ) := by exact_mod_cast h
    rw [div_mul_eq_mul_div, div_le_iff₀ hpos]
    nlinarith
  · norm_num

theorem levelPct_le (r : ComplianceReport) (level : String) :
    r.levelPct level ≤ 100 :=
  scoreOfChecks_pct_le _

/-- C2: for every level, `get_level_score` returns `(passed, total,
percentage)` where `passed` counts the checks with `status = true`, `total`
is the length of the level's list, `percentage = passed / total * 100` when
`total > 0`, and `percentage = 0` when `total = 0` (the guard, not a
division by zero, produces the empty-level value). -/
theorem get_level_score_spec (r : ComplianceReport) (level : String) :
    (r.get_level_score level).1 =
        ((levelChecks r level).filter (fun c => c.status)).length ∧
    (r.get_level_score level).2.1 = (levelChecks r level).length ∧
    (0 < (r.get_level_score level).2.1 →
      (r.get_level_score level).2.2 =
        ((r.get_level_score level).1 : ℚ) / ((r.get_level_score level).2.1 : ℚ) * 100) ∧
    ((r.get_level_score level).2.1 = 0 → (r.get_level_score level).2.2 = 0) := by
  refine ⟨rfl, rfl, ?_, ?_⟩
  · intro h
    simp only [ComplianceReport.get_level_score, scoreOfChecks_total] at h ⊢
    rw [scoreOfChecks_pct, if_pos h, scoreOfChecks_passed]
  · intro h
    simp only [ComplianceReport.get_level_score, scoreOfChecks_total] at h ⊢
    rw [scoreOfChecks_pct, if_neg]
    omega

/-- A sample check used by concrete witnesses. -/
def sampleCheck (lvl : String) (b : Bool) : ComplianceCheck :=
  { name := "c", description := "d", level := lvl, category := "Quality",
    status := b }

/-- A sample report used by concrete witnesses: two Bronze checks, one
passing, all other levels empty. -/
def rHalf : ComplianceReport :=
  { bronze_checks := [sampleCheck "Bronze" true, sampleCheck "Bronze" false] }

theorem get_level_score_spec_witness :
    (0 < (rHalf.get_level_score "Bronze").2.1 ∧
      (rHalf.get_level_score "Bronze").2.2 =
        ((rHalf.get_level_score "Bronze").1 : ℚ) /
          ((rHalf.get_level_score "Bronze").2.1 : ℚ) * 100) ∧
    ((rHalf.get_level_score "Silver").2.1 = 0 ∧
      (rHalf.get_level_score "Silver").2.2 = 0) :=
  ⟨⟨by decide, (get_level_score_spec rHalf "Bronze").2.2.1 (by decide)⟩,
   ⟨by decide, (get_level_score_spec rHalf "Silver").2.2.2 (by decide)⟩⟩

/-- C1: `get_overall_level` follows the gate table exactly:
"Non-compliant" iff Bronze < 100; "Bronze" iff Bronze = 100 and
Silver < 100; "Silver" iff Bronze = Silver = 100 and Gold < 66; "Gold" iff
additionally Gold ≥ 66 and Platinum < 66; and "Platinum" iff Bronze = 100,
Silver = 100, Gold ≥ 66 and Platinum ≥ 66. -/
theorem get_overall_level_table (r : ComplianceReport) :
    (r.get_overall_level = "Non-compliant" ↔ r.levelPct "Bronze" < 100) ∧
    (r.get_overall_level = "Bronze" ↔
      r.levelPct "Bronze" = 100 ∧ r.levelPct "Silver" < 100) ∧
    (r.get_overall_level = "Silver" ↔
      r.levelPct "Bronze" = 100 ∧ r.levelPct "Silver" = 100 ∧
      r.levelPct "Gold" < 66) ∧
    (r.get_overall_level = "Gold" ↔
      r.levelPct "Bronze" = 100 ∧ r.levelPct "Silver" = 100 ∧
      66 ≤ r.levelPct "Gold" ∧ r.levelPct "Platinum" < 66) ∧
    (r.get_overall_level = "Platinum" ↔
      r.levelPct "Bronze" = 100 ∧ r.levelPct "Silver" = 100 ∧
      66 ≤ r.levelPct "Gold" ∧ 66 ≤ r.levelPct "Platinum") := by
  have hb := levelPct_le r "Bronze"
  have hs := levelPct_le r "Silver"
  rw [get_overall_level_eq_gate]
  unfold gate
  split_ifs with h1 h2 h3 h4
  · exact ⟨iff_of_true rfl h1,
      iff_of_false (by decide)
        (fun hx => by rw [hx.1] at h1; exact lt_irrefl _ h1),
      iff_of_false (by decide)
        (fun hx => by rw [hx.1] at h1; exact lt_irrefl _ h1),
      iff_of_false (by decide)
        (fun hx => by rw [hx.1] at h1; exact lt_irrefl _ h1),
      iff_of_false (by decide)
        (fun hx => by rw [hx.1] at h1; exact lt_irrefl _ h1)⟩
  · have hb100 : r.levelPct "Bronze" = 100 := le_antisymm hb (not_lt.mp h1)
    exact ⟨iff_of_false (by decide) h1,
      iff_of_true rfl ⟨hb100, h2⟩,
      iff_of_false (by decide)
        (fun hx => by rw [hx.2.1] at h2; exact lt_irrefl _ h2),
      iff_of_false (by decide)
        (fun hx => by rw [hx.2.1] at h2; exact lt_irrefl _ h2),
      iff_of_false (by decide)
        (fun hx => by rw [hx.2.1] at h2; exact lt_irrefl _ h2)⟩
  · have hb100 : r.levelPct "Bronze" = 100 := le_antisymm hb (not_lt.mp h1)
    have hs100 : r.levelPct "Silver" = 100 := le_antisymm hs (not_lt.mp h2)
    exact ⟨iff_of_false (by decide) h1,
      iff_of_false (by decide) (fun hx => h2 hx.2),
      iff_of_true rfl ⟨hb100, hs100, h3⟩,
      iff_of_false (by decide) (fun hx => absurd h3 (not_lt.mpr hx.2.2.1)),
      iff_of_false (by decide) (fun hx => absurd h3 (not_lt.mpr hx.2.2.1))⟩
  · have hb100 : r.levelPct "Bronze" = 100 := le_antisymm hb (not_lt.mp h1)
    have hs100 : r.levelPct "Silver" = 100 := le_antisymm hs (not_lt.mp h2)
    exact ⟨iff_of_false (by decide) h1,
      iff_of_false (by decide) (fun hx => h2 hx.2),
      iff_of_false (by decide) (fun hx => h3 hx.2.2),
      iff_of_true rfl ⟨hb100, hs100, not_lt.mp h3, h4⟩,
      iff_of_false (by decide) (fun hx => absurd h4 (not_lt.mpr hx.2.2.2))⟩
  · have hb100 : r.levelPct "Bronze" = 100 := le_antisymm hb (not_lt.mp h1)
    have hs100 : r.levelPct "Silver" = 100 := le_antisymm hs (not_lt.mp h2)
    exact ⟨iff_of_false (by decide) h1,
      iff_of_false (by decide) (fun hx => h2 hx.2),
      iff_of_false (by decide) (fun hx => h3 hx.2.2),
      iff_of_false (by decide) (fun hx => h4 hx.2.2.2),
      iff_of_true rfl ⟨hb100, hs100, not_lt.mp h3, not_lt.mp h4⟩⟩

/-- Abstract view of the repository tree as `check_file_content` touches it:
`fileExists` is `Path.exists`, and `readText` is `Path.read_text('utf-8')`
with `Except.error e` standing for a raised exception whose `str(e)` is `e`
(the method catches every `Exception`). -/
structure FileView where
  fileExists : String → Bool
  readText : String → Except String String

/-- `RSRChecker.check_file_content(path, patterns)`.  The regex engine is
the abstract parameter `search`: `search p content` models
`re.search(p, content, re.IGNORECASE | re.MULTILINE) is not None`. -/
def check_file_content (fs : FileView) (search : String → String → Bool)
    (path : String) (patterns : List String) : Bool × String :=
  if fs.fileExists path = false then
    (false, "File " ++ path ++ " not found")
  else
    match fs.readText path with
    | Except.error e => (false, "Error reading file: " ++ e)
    | Except.ok content =>
      let missing := patterns.filter (fun p => ! search p content)
      if ! missing.isEmpty then
        (false, "Missing patterns: " ++ String.intercalate ", " (missing.take 3))
      else
        (true, "All required content present")

theorem check_file_content_absent (fs : FileView)
    (search : String → String → Bool) (path : String) (patterns : List String)
    (h : fs.fileExists path = false) :
    check_file_content fs search path patterns =
      (false, "File " ++ path ++ " not found") := by
  unfold check_file_content
  rw [h]
  rfl

theorem check_file_content_raise (fs : FileView)
    (search : String → String → Bool) (path : String) (patterns : List String)
    (e : String) (hex : fs.fileExists path = true)
    (hread : fs.readText path = Except.error e) :
    check_file_content fs search path patterns =
      (false, "Error reading file: " ++ e) := by
  unfold check_file_content
  rw [hex, hread]
  rfl

theorem check_file_content_read (fs : FileView)
    (search : String → String → Bool) (path : String) (patterns : List String)
    (content : String) (hex : fs.fileExists path = true)
    (hread : fs.readText path = Except.ok content) :
    check_file_content fs search path patterns =
      (if ! (patterns.filter (fun p => ! search p content)).isEmpty then
        (false, "Missing patterns: " ++ String.intercalate ", "
          ((patterns.filter (fun p => ! search p content)).take 3))
      else
        (true, "All required content present")) := by
  unfold check_file_content
  rw [hex, hread]
  rfl

/-- C3: on a readable file, `check_file_content` passes iff every pattern
matches (under the abstract case-insensitive multiline search), and when
some pattern is missing it returns `false` with a detail joining the first
at most 3 missing pattern sources with ", ". -/
theorem check_file_content_patterns (fs : FileView)
    (search : String → String → Bool) (path : String) (patterns : List String)
    (content : String) (hex : fs.fileExists path = true)
    (hread : fs.readText path = Except.ok content) :
    ((check_file_content fs search path patterns).1 = true ↔
      ∀ p ∈ patterns, search p content = true) ∧
    (patterns.filter (fun p => ! search p content) ≠ [] →
      check_file_content fs search path patterns =
        (false, "Missing patterns: " ++ String.intercalate ", "
          ((patterns.filter (fun p => ! search p content)).take 3))) := by
  rw [check_file_content_read fs search path patterns content hex hread]
  by_cases hm : patterns.filter (fun p => ! search p content) = []
  · rw [hm]
    constructor
    · refine iff_of_true rfl ?_
      intro p hp
      have := List.filter_eq_nil_iff.mp hm p hp
      simpa using this
    · intro hne
      exact absurd rfl hne
  · have hne : ((patterns.filter (fun p => ! search p content)).isEmpty) = false := by
      rw [← Bool.not_eq_true, List.isEmpty_iff]
      exact hm
    rw [hne]
    constructor
    · simp only [Bool.not_false, if_true]
      refine iff_of_false (by decide) ?_
      intro hall
      apply hm
      rw [List.filter_eq_nil_iff]
      intro p hp
      simp [hall p hp]
    · intro _
      simp only [Bool.not_false, if_true]


/-- A concrete repository view used by witnesses: `README.md` exists and
reads as "alpha beta", `SECURITY.md` exists but raises "boom" when read,
everything else is absent. -/
def fsDemo : FileView :=
  { fileExists := fun p => p == "README.md" || p == "SECURITY.md",
    readText := fun p =>
      if p == "README.md" then Except.ok "alpha beta"
      else Except.error "boom" }

/-- A concrete search function used by witnesses: exactly the patterns
"alpha" and "beta" match any content. -/
def searchDemo : String → String → Bool :=
  fun p _ => p == "alpha" || p == "beta"

theorem check_file_content_patterns_witness :
    fsDemo.fileExists "README.md" = true ∧
    fsDemo.readText "README.md" = Except.ok "alpha beta" ∧
    check_file_content fsDemo searchDemo "README.md"
        ["alpha", "P2", "beta", "P4"] =
      (false, "Missing patterns: P2, P4") := by
  refine ⟨rfl, rfl, ?_⟩
  rw [(check_file_content_patterns fsDemo searchDemo "README.md"
      ["alpha", "P2", "beta", "P4"] "alpha beta" rfl rfl).2 (by decide)]
  rfl

/-- C4 counterexample: for the absent file `LICENSE`, the detail string is
"File LICENSE not found", which names the path and is not the literal
"File not found" that the claim states. -/
theorem check_file_content_absent_detail_cex :
    (check_file_content fsDemo searchDemo "LICENSE" []).1 = false ∧
    (check_file_content fsDemo searchDemo "LICENSE" []).2 =
      "File LICENSE not found" ∧
    (check_file_content fsDemo searchDemo "LICENSE" []).2 ≠
      "File not found" := by
  refine ⟨?_, ?_, ?_⟩ <;> decide

/-- C4 (amended): `check_file_content` is total over its error branches:
when the target file is absent it returns `false` with detail
"File {path} not found", and when the file exists but reading it raises an
exception `e` it returns `false` with the detail "Error reading file: "
followed by the error text.  No exception propagates: the function is total
by construction, every branch returning a `(Bool, String)` pair. -/
theorem check_file_content_total (fs : FileView)
    (search : String → String → Bool) (path : String)
    (patterns : List String) :
    (fs.fileExists path = false →
      check_file_content fs search path patterns =
        (false, "File " ++ path ++ " not found")) ∧
    (∀ e, fs.fileExists path = true → fs.readText path = Except.error e →
      check_file_content fs search path patterns =
        (false, "Error reading file: " ++ e)) :=
  ⟨fun h => check_file_content_absent fs search path patterns h,
   fun e hex hread => check_file_content_raise fs search path patterns e hex hread⟩

theorem check_file_content_total_witness :
    check_file_content fsDemo searchDemo "LICENSE" [] =
      (false, "File LICENSE not found") ∧
    check_file_content fsDemo searchDemo "SECURITY.md" [] =
      (false, "Error reading file: boom") := by
  constructor
  · rw [(check_file_content_total fsDemo searchDemo "LICENSE" []).1 (by decide)]
    rfl
  · rw [(check_file_content_total fsDemo searchDemo "SECURITY.md" []).2 "boom"
      (by decide) rfl]
    rfl

/-- The exit decision at the end of `main`: `sys.exit(1)` when the overall
level is "Non-compliant", `sys.exit(0)` otherwise. -/
def mainExitCode (r : ComplianceReport) : ℕ :=
  if r.get_overall_level = "Non-compliant" then 1 else 0

/-- C6: the process exit code is 0 iff the overall level is not
"Non-compliant", and it is 1 when the overall level is "Non-compliant". -/
theorem mainExitCode_spec (r : ComplianceReport) :
    (mainExitCode r = 0 ↔ r.get_overall_level ≠ "Non-compliant") ∧
    (r.get_overall_level = "Non-compliant" → mainExitCode r = 1) := by
  unfold mainExitCode
  by_cases h : r.get_overall_level = "Non-compliant" <;> simp [h]

/-- The empty report (no checks recorded). -/
def rEmpty : ComplianceReport := {}

theorem mainExitCode_spec_witness :
    rEmpty.get_overall_level = "Non-compliant" ∧ mainExitCode rEmpty = 1 := by
  have h : rEmpty.get_overall_level = "Non-compliant" := by
    unfold ComplianceReport.get_overall_level
    norm_num [rEmpty, ComplianceReport.get_level_score, scoreOfChecks, levelChecks]
  exact ⟨h, (mainExitCode_spec rEmpty).2 h⟩

/-- One entry of the exported `checks` array (the dict comprehension in
`export_json`). -/
structure ExportedCheck where
  name : String
  description : String
  category : String
  status : Bool
  details : String
deriving Repr, DecidableEq

/-- The exported `score` object of one level. -/
structure ExportedScore where
  passed : ℕ
  total : ℕ
  percentage : ℚ
deriving Repr, DecidableEq

/-- One entry of the exported `levels` object. -/
structure ExportedLevel where
  score : ExportedScore
  checks : List ExportedCheck
deriving Repr, DecidableEq

/-- The dictionary built by `export_json` before `json.dump`: `timestamp`
and `repository` are environment strings carried opaquely, `overall_level`
and the four level entries are computed from the report. -/
structure ExportData where
  timestamp : String
  repository : String
  overall_level : String
  bronze : ExportedLevel
  silver : ExportedLevel
  gold : ExportedLevel
  platinum : ExportedLevel
deriving Repr, DecidableEq

/-- One iteration of the export loop: the score triple comes from
`get_level_score(level.capitalize())` and the checks array from
`getattr(self.report, f"{level}_checks")` (the loop variable `level` is one
of "bronze", "silver", "gold", "platinum", on which the direct attribute
access agrees with `levelChecks`). -/
def exportLevel (r : ComplianceReport) (level : String) : ExportedLevel :=
  { score :=
      { passed := (r.get_level_score level.capitalize).1,
        total := (r.get_level_score level.capitalize).2.1,
        percentage := (r.get_level_score level.capitalize).2.2 },
    checks := (levelChecks r level).map (fun c =>
      { name := c.name, description := c.description,
        category := c.category, status := c.status, details := c.details }) }

/-- `RSRChecker.export_json`: the exported report object. -/
def export_json (r : ComplianceReport) (timestamp repository : String) :
    ExportData :=
  { timestamp := timestamp, repository := repository,
    overall_level := r.get_overall_level,
    bronze := exportLevel r "bronze",
    silver := exportLevel r "silver",
    gold := exportLevel r "gold",
    platinum := exportLevel r "platinum" }

/-- C5: the exported `levels.bronze.score.passed` equals the number of
Bronze checks with `status = true` in the in-memory report, and each
exported level's score triple equals `get_level_score` of that level. -/
theorem export_json_scores (r : ComplianceReport) (ts repo : String) :
    ((export_json r ts repo).bronze.score.passed =
      (r.bronze_checks.filter (fun c => c.status)).length) ∧
    (((export_json r ts repo).bronze.score.passed,
      (export_json r ts repo).bronze.score.total,
      (export_json r ts repo).bronze.score.percentage) =
        r.get_level_score "Bronze") ∧
    (((export_json r ts repo).silver.score.passed,
      (export_json r ts repo).silver.score.total,
      (export_json r ts repo).silver.score.percentage) =
        r.get_level_score "Silver") ∧
    (((export_json r ts repo).gold.score.passed,
      (export_json r ts repo).gold.score.total,
      (export_json r ts repo).gold.score.percentage) =
        r.get_level_score "Gold") ∧
    (((export_json r ts repo).platinum.score.passed,
      (export_json r ts repo).platinum.score.total,
      (export_json r ts repo).platinum.score.percentage) =
        r.get_level_score "Platinum") :=
  ⟨rfl, rfl, rfl, rfl, rfl⟩

/-- One file yielded by `(self.repo_path / "tests").rglob("*")`: whether it
is a regular file, and the result of
`read_text(encoding='utf-8', errors='ignore')`, with `Except.error`
standing for a raised exception (swallowed by the bare `except`). -/
structure TestFile where
  isFile : Bool
  readText : Except String String
deriving Repr

/-- The slice of the repository that `check_gold_level`'s first check
reads: entry existence plus the files enumerated under `tests/`. -/
structure GoldView where
  fileExists : String → Bool
  testFiles : List TestFile

/-- The `formal_files` list of directories probed for formal
verification. -/
def formal_files : List String :=
  ["proofs/", "formal/", "coq/", "isabelle/", "tla+/"]

/-- The property-based-testing library markers searched for in test
files. -/
def pbt_libs : List String := ["hypothesis", "quickcheck", "proptest"]

/-- Whether `needle` is an initial segment of `hay` (character lists). -/
def startsWithList : List Char → List Char → Bool
  | _, [] => true
  | [], _ :: _ => false
  | h :: hs, n :: ns => h == n && startsWithList hs ns

/-- Whether `needle` occurs contiguously anywhere in `hay`. -/
def hasSubList : List Char → List Char → Bool
  | [], needle => needle.isEmpty
  | c :: rest, needle =>
      startsWithList (c :: rest) needle || hasSubList rest needle

/-- Python `needle in hay` on strings, as contiguous-occurrence search over
the character sequences. -/
def containsSub (hay needle : String) : Bool :=
  hasSubList hay.data needle.data

/-- `has_formal` of `check_gold_level`: any formal-verification directory
exists. -/
def has_formal (g : GoldView) : Bool :=
  formal_files.any (fun f => g.fileExists f)

/-- `has_property_tests` of `check_gold_level`: guarded by the existence of
`tests/`, then the scan loop over the files under it (the loop breaks at
the first hit, which leaves the same Boolean as scanning them all; a file
whose read raises contributes nothing). -/
def has_property_tests (g : GoldView) : Bool :=
  g.fileExists "tests" &&
    g.testFiles.any (fun tf =>
      tf.isFile &&
        match tf.readText with
        | Except.ok content => pbt_libs.any (fun lib => containsSub content lib)
        | Except.error _ => false)

/-- The `status` recorded for the Gold "Formal verification" check. -/
def gold_formal_status (g : GoldView) : Bool :=
  has_formal g || has_property_tests g

/-- C7: assuming the view is coherent (no files are enumerated under a
`tests/` directory that does not exist), the Gold "Formal verification"
check passes iff one of the formal-verification directories exists or some
test file reads successfully and contains one of the property-based-testing
markers. -/
theorem gold_formal_status_iff (g : GoldView)
    (hcoh : g.fileExists "tests" = false → g.testFiles = []) :
    gold_formal_status g = true ↔
      ((∃ f ∈ formal_files, g.fileExists f = true) ∨
        (∃ tf ∈ g.testFiles, tf.isFile = true ∧
          ∃ content, tf.readText = Except.ok content ∧
            ∃ lib ∈ pbt_libs, containsSub content lib = true)) := by
  unfold gold_formal_status has_formal has_property_tests
  rw [Bool.or_eq_true, Bool.and_eq_true, List.any_eq_true]
  constructor
  · rintro (h | ⟨-, h⟩)
    · exact Or.inl h
    · rw [List.any_eq_true] at h
      obtain ⟨tf, htf, hb⟩ := h
      rw [Bool.and_eq_true] at hb
      obtain ⟨hfile, hscan⟩ := hb
      refine Or.inr ⟨tf, htf, hfile, ?_⟩
      cases hr : tf.readText with
      | ok content =>
        rw [hr] at hscan
        exact ⟨content, rfl, List.any_eq_true.mp hscan⟩
      | error e =>
        rw [hr] at hscan
        exact Bool.noConfusion hscan
  · rintro (h | ⟨tf, htf, hfile, content, hr, hlib⟩)
    · exact Or.inl h
    · have htests : g.fileExists "tests" = true := by
        by_contra hno
        rw [Bool.not_eq_true] at hno
        rw [hcoh hno] at htf
        exact absurd htf (List.not_mem_nil tf)
      refine Or.inr ⟨htests, ?_⟩
      rw [List.any_eq_true]
      refine ⟨tf, htf, ?_⟩
      rw [Bool.and_eq_true]
      refine ⟨hfile, ?_⟩
      rw [hr]
      exact List.any_eq_true.mpr hlib

/-- A concrete repository for the C7 witness: no formal directories, a
`tests/` directory with one readable test file importing hypothesis. -/
def goldDemo : GoldView :=
  { fileExists := fun p => p == "tests",
    testFiles := [{ isFile := true,
                    readText := Except.ok "import hypothesis" }] }

theorem gold_formal_status_iff_witness :
    (goldDemo.fileExists "tests" = false → goldDemo.testFiles = []) ∧
    gold_formal_status goldDemo = true :=
  ⟨fun h => absurd h (by decide),
   (gold_formal_status_iff goldDemo (fun h => absurd h (by decide))).mpr
     (Or.inr ⟨{ isFile := true, readText := Except.ok "import hypothesis" },
       List.mem_singleton.mpr rfl, rfl, "import hypothesis", rfl,
       "hypothesis", by decide, by decide⟩)⟩

/-- The fixed `colors` table of `generate_badge`, in source order. -/
def badge_colors : List (String × String) :=
  [("Platinum", "purple"), ("Gold", "yellow"), ("Silver", "silver"),
   ("Bronze", "orange"), ("Non-compliant", "red")]

/-- `colors.get(level, "lightgrey")`. -/
def badgeColor (level : String) : String :=
  (badge_colors.lookup level).getD "lightgrey"

/-- Python `level.replace(' ', '%20')`: every space expands to "%20". -/
def replaceSpaces (s : String) : String :=
  String.mk ((s.data.map (fun c => if c = ' ' then "%20".data else [c])).flatten)

/-- The shields.io URL built by `generate_badge` for a given level
string. -/
def badgeUrlFor (level : String) : String :=
  "https://img.shields.io/badge/RSR-" ++ replaceSpaces level ++ "-" ++
    badgeColor level

/-- `RSRChecker.generate_badge`: the badge URL for the report's overall
level. -/
def ComplianceReport.generate_badge (r : ComplianceReport) : String :=
  badgeUrlFor r.get_overall_level

/-- C8: `generate_badge` returns
`https://img.shields.io/badge/RSR-{level}-{color}` with spaces
percent-encoded, colors per the fixed table (Platinum purple, Gold yellow,
Silver silver, Bronze orange, Non-compliant red), `lightgrey` for any level
string outside the table, and exactly yellow when the overall level is
"Gold". -/
theorem generate_badge_spec (r : ComplianceReport) (level : String) :
    (r.generate_badge = "https://img.shields.io/badge/RSR-" ++
      replaceSpaces r.get_overall_level ++ "-" ++
      badgeColor r.get_overall_level) ∧
    badgeColor "Platinum" = "purple" ∧
    badgeColor "Gold" = "yellow" ∧
    badgeColor "Silver" = "silver" ∧
    badgeColor "Bronze" = "orange" ∧
    badgeColor "Non-compliant" = "red" ∧
    ((∀ p ∈ badge_colors, level ≠ p.1) → badgeColor level = "lightgrey") ∧
    (r.get_overall_level = "Gold" →
      r.generate_badge = "https://img.shields.io/badge/RSR-Gold-yellow") := by
  refine ⟨rfl, rfl, rfl, rfl, rfl, rfl, ?_, ?_⟩
  · intro h
    have h1 : (level == "Platinum") = false :=
      beq_eq_false_iff_ne.mpr (h ("Platinum", "purple") (by decide))
    have h2 : (level == "Gold") = false :=
      beq_eq_false_iff_ne.mpr (h ("Gold", "yellow") (by decide))
    have h3 : (level == "Silver") = false :=
      beq_eq_false_iff_ne.mpr (h ("Silver", "silver") (by decide))
    have h4 : (level == "Bronze") = false :=
      beq_eq_false_iff_ne.mpr (h ("Bronze", "orange") (by decide))
    have h5 : (level == "Non-compliant") = false :=
      beq_eq_false_iff_ne.mpr (h ("Non-compliant", "red") (by decide))
    simp [badgeColor, badge_colors, List.lookup, h1, h2, h3, h4, h5]
  · intro hg
    unfold ComplianceReport.generate_badge
    rw [hg]
    rfl

/-- A concrete report achieving exactly the Gold level: Bronze and Silver
fully pass, the single Gold check passes (100% ≥ 66), the single Platinum
check fails (0% < 66). -/
def rGold : ComplianceReport :=
  { bronze_checks := [sampleCheck "Bronze" true],
    silver_checks := [sampleCheck "Silver" true],
    gold_checks := [sampleCheck "Gold" true],
    platinum_checks := [sampleCheck "Platinum" false] }

theorem generate_badge_spec_witness :
    ((∀ p ∈ badge_colors, ("Diamond" : String) ≠ p.1) ∧
      badgeColor "Diamond" = "lightgrey") ∧
    (rGold.get_overall_level = "Gold" ∧
      rGold.generate_badge = "https://img.shields.io/badge/RSR-Gold-yellow") := by
  have hb : (rGold.get_level_score "Bronze").2.2 = 100 := by
    rw [ComplianceReport.get_level_score, levelChecks_bronze, scoreOfChecks_pct]
    norm_num [rGold, sampleCheck]
  have hs : (rGold.get_level_score "Silver").2.2 = 100 := by
    rw [ComplianceReport.get_level_score, levelChecks_silver, scoreOfChecks_pct]
    norm_num [rGold, sampleCheck]
  have hgo : (rGold.get_level_score "Gold").2.2 = 100 := by
    rw [ComplianceReport.get_level_score, levelChecks_gold, scoreOfChecks_pct]
    norm_num [rGold, sampleCheck]
  have hpl : (rGold.get_level_score "Platinum").2.2 = 0 := by
    rw [ComplianceReport.get_level_score, levelChecks_platinum, scoreOfChecks_pct]
    norm_num [rGold, sampleCheck]
  have hg : rGold.get_overall_level = "Gold" := by
    unfold ComplianceReport.get_overall_level
    rw [hb, hs, hgo, hpl]
    norm_num
  exact ⟨⟨by decide, (generate_badge_spec rEmpty "Diamond").2.2.2.2.2.2.1 (by decide)⟩,
    ⟨hg, (generate_badge_spec rGold "Diamond").2.2.2.2.2.2.2 hg⟩⟩

theorem scoreOfChecks_eq_of_status_perm (l1 l2 : List ComplianceCheck)
    (h : (↑(l1.map (fun c => c.status)) : Multiset Bool) =
      (↑(l2.map (fun c => c.status)) : Multiset Bool)) :
    scoreOfChecks l1 = scoreOfChecks l2 := by
  have hlen : l1.length = l2.length := by
    have hc := congrArg Multiset.card h
    rw [Multiset.coe_card, Multiset.coe_card, List.length_map,
      List.length_map] at hc
    exact hc
  have hmap : ∀ l : List ComplianceCheck,
      (l.map (fun c => c.status)).count true =
        (l.filter (fun c => c.status)).length := by
    intro l
    have hfun : ((fun x => x == true) ∘ fun c : ComplianceCheck => c.status) =
        (fun c : ComplianceCheck => c.status) := by
      funext c
      simp
    rw [List.count_eq_countP, List.countP_map, hfun,
      List.countP_eq_length_filter]
  have hcnt : (l1.filter (fun c => c.status)).length =
      (l2.filter (fun c => c.status)).length := by
    have hc := congrArg (Multiset.count true) h
    rw [Multiset.coe_count, Multiset.coe_count, hmap, hmap] at hc
    exact hc
  unfold scoreOfChecks
  rw [hlen, hcnt]

/-- C9: for any two reports whose check lists carry the same multiset of
`status` Booleans per level, every `get_level_score` and the
`get_overall_level` agree — scoring reads only statuses and list lengths,
so `required`, `weight`, names, details and the order of checks within a
level never affect a score or the overall level. -/
theorem scoring_depends_only_on_statuses (r1 r2 : ComplianceReport)
    (hb : (↑(r1.bronze_checks.map (fun c => c.status)) : Multiset Bool) =
      (↑(r2.bronze_checks.map (fun c => c.status)) : Multiset Bool))
    (hs : (↑(r1.silver_checks.map (fun c => c.status)) : Multiset Bool) =
      (↑(r2.silver_checks.map (fun c => c.status)) : Multiset Bool))
    (hg : (↑(r1.gold_checks.map (fun c => c.status)) : Multiset Bool) =
      (↑(r2.gold_checks.map (fun c => c.status)) : Multiset Bool))
    (hp : (↑(r1.platinum_checks.map (fun c => c.status)) : Multiset Bool) =
      (↑(r2.platinum_checks.map (fun c => c.status)) : Multiset Bool)) :
    (∀ level : String, r1.get_level_score level = r2.get_level_score level) ∧
    r1.get_overall_level = r2.get_overall_level := by
  have key : ∀ level : String,
      r1.get_level_score level = r2.get_level_score level := by
    intro level
    unfold ComplianceReport.get_level_score levelChecks
    split_ifs <;>
      first
        | exact scoreOfChecks_eq_of_status_perm _ _ hb
        | exact scoreOfChecks_eq_of_status_perm _ _ hs
        | exact scoreOfChecks_eq_of_status_perm _ _ hg
        | exact scoreOfChecks_eq_of_status_perm _ _ hp
        | rfl
  refine ⟨key, ?_⟩
  unfold ComplianceReport.get_overall_level
  rw [key "Bronze", key "Silver", key "Gold", key "Platinum"]

/-- Two reports for the C9 witness: the same Bronze statuses {true, false}
in opposite orders, with different names, `required` flags and weights. -/
def rPermA : ComplianceReport :=
  { bronze_checks :=
      [{ name := "a1", description := "d1", level := "Bronze",
         category := "Documentation", required := true, status := true,
         details := "Found", weight := 1 },
       { name := "a2", description := "d2", level := "Bronze",
         category := "Legal", required := true, status := false,
         details := "Missing", weight := 1 }] }

/-- See `rPermA`. -/
def rPermB : ComplianceReport :=
  { bronze_checks :=
      [{ name := "b1", description := "e1", level := "Bronze",
         category := "Security", required := false, status := false,
         details := "", weight := 5 },
       { name := "b2", description := "e2", level := "Bronze",
         category := "Build", required := false, status := true,
         details := "", weight := 2 }] }

theorem scoring_depends_only_on_statuses_witness :
    ((↑(rPermA.bronze_checks.map (fun c => c.status)) : Multiset Bool) =
      (↑(rPermB.bronze_checks.map (fun c => c.status)) : Multiset Bool)) ∧
    rPermA.get_overall_level = rPermB.get_overall_level := by
  have hb : (↑(rPermA.bronze_checks.map (fun c => c.status)) : Multiset Bool) =
      (↑(rPermB.bronze_checks.map (fun c => c.status)) : Multiset Bool) := by
    rw [Multiset.coe_eq_coe]
    simp [rPermA, rPermB]
    exact List.Perm.swap _ _ _
  exact ⟨hb,
    (scoring_depends_only_on_statuses rPermA rPermB hb rfl rfl rfl).2⟩

/-- The check list with the check at position `i` forced to passing
(`status := true`); out-of-range positions leave the list unchanged. -/
def passCheckAt : List ComplianceCheck → ℕ → List ComplianceCheck
  | [], _ => []
  | c :: cs, 0 => { c with status := true } :: cs
  | c :: cs, n + 1 => c :: passCheckAt cs n

/-- The total order on overall levels:
Non-compliant < Bronze < Silver < Gold < Platinum. -/
def levelRank : String → ℕ
  | "Bronze" => 1
  | "Silver" => 2
  | "Gold" => 3
  | "Platinum" => 4
  | _ => 0

theorem passCheckAt_length (l : List ComplianceCheck) (i : ℕ) :
    (passCheckAt l i).length = l.length := by
  induction l generalizing i with
  | nil => rfl
  | cons c cs ih =>
    cases i with
    | zero => rfl
    | succ n => simp [passCheckAt, ih n]

theorem passCheckAt_countP (l : List ComplianceCheck) (i : ℕ) :
    l.countP (fun c => c.status) ≤
      (passCheckAt l i).countP (fun c => c.status) := by
  induction l generalizing i with
  | nil => exact le_refl _
  | cons c cs ih =>
    cases i with
    | zero =>
      simp only [passCheckAt, List.countP_cons]
      cases hc : c.status <;> simp
    | succ n =>
      simp only [passCheckAt, List.countP_cons]
      exact Nat.add_le_add (ih n) (le_refl _)

theorem scoreOfChecks_pct_mono (l : List ComplianceCheck) (i : ℕ) :
    (scoreOfChecks l).2.2 ≤ (scoreOfChecks (passCheckAt l i)).2.2 := by
  rw [scoreOfChecks_pct, scoreOfChecks_pct, passCheckAt_length]
  split
  · rename_i h
    have hpos : (0 : ℚ) < (l.length : ℚ) := by exact_mod_cast h
    have hcnt : ((l.filter (fun c => c.status)).length : ℚ) ≤
        (((passCheckAt l i).filter (fun c => c.status)).length : ℚ) := by
      have := passCheckAt_countP l i
      rw [List.countP_eq_length_filter, List.countP_eq_length_filter] at this
      exact_mod_cast this
    have hdiv : ((l.filter (fun c => c.status)).length : ℚ) / (l.length : ℚ) ≤
        (((passCheckAt l i).filter (fun c => c.status)).length : ℚ) /
          (l.length : ℚ) := by
      exact div_le_div_of_nonneg_right hcnt hpos.le
    exact mul_le_mul_of_nonneg_right hdiv (by norm_num)
  · exact le_refl _

theorem gate_mono (b1 s1 g1 p1 b2 s2 g2 p2 : ℚ)
    (hb : b1 ≤ b2) (hs : s1 ≤ s2) (hg : g1 ≤ g2) (hp : p1 ≤ p2) :
    levelRank (gate b1 s1 g1 p1) ≤ levelRank (gate b2 s2 g2 p2) := by
  unfold gate
  split_ifs <;>
    first
      | (exfalso; linarith)
      | simp [levelRank]

theorem levelPct_bronze (r : ComplianceReport) :
    r.levelPct "Bronze" = (scoreOfChecks r.bronze_checks).2.2 := by
  rw [ComplianceReport.levelPct, ComplianceReport.get_level_score,
    levelChecks_bronze]

theorem levelPct_silver (r : ComplianceReport) :
    r.levelPct "Silver" = (scoreOfChecks r.silver_checks).2.2 := by
  rw [ComplianceReport.levelPct, ComplianceReport.get_level_score,
    levelChecks_silver]

theorem levelPct_gold (r : ComplianceReport) :
    r.levelPct "Gold" = (scoreOfChecks r.gold_checks).2.2 := by
  rw [ComplianceReport.levelPct, ComplianceReport.get_level_score,
    levelChecks_gold]

theorem levelPct_platinum (r : ComplianceReport) :
    r.levelPct "Platinum" = (scoreOfChecks r.platinum_checks).2.2 := by
  rw [ComplianceReport.levelPct, ComplianceReport.get_level_score,
    levelChecks_platinum]

/-- C10: `get_overall_level` is monotone in check outcomes: setting any
single check's status to `true` (in whichever of the four lists, at any
position) never decreases the overall level under the order
Non-compliant < Bronze < Silver < Gold < Platinum.  In particular flipping
a failing check to passing never lowers the level. -/
theorem get_overall_level_mono (r : ComplianceReport) (i : ℕ) :
    levelRank r.get_overall_level ≤
      levelRank (ComplianceReport.get_overall_level
        { r with bronze_checks := passCheckAt r.bronze_checks i }) ∧
    levelRank r.get_overall_level ≤
      levelRank (ComplianceReport.get_overall_level
        { r with silver_checks := passCheckAt r.silver_checks i }) ∧
    levelRank r.get_overall_level ≤
      levelRank (ComplianceReport.get_overall_level
        { r with gold_checks := passCheckAt r.gold_checks i }) ∧
    levelRank r.get_overall_level ≤
      levelRank (ComplianceReport.get_overall_level
        { r with platinum_checks := passCheckAt r.platinum_checks i }) := by
  refine ⟨?_, ?_, ?_, ?_⟩
  · rw [get_overall_level_eq_gate, get_overall_level_eq_gate,
      levelPct_bronze, levelPct_silver, levelPct_gold, levelPct_platinum]
    exact gate_mono _ _ _ _ _ _ _ _
      (scoreOfChecks_pct_mono _ i) (le_refl _) (le_refl _) (le_refl _)
  · rw [get_overall_level_eq_gate, get_overall_level_eq_gate,
      levelPct_bronze, levelPct_silver, levelPct_gold, levelPct_platinum]
    exact gate_mono _ _ _ _ _ _ _ _
      (le_refl _) (scoreOfChecks_pct_mono _ i) (le_refl _) (le_refl _)
  · rw [get_overall_level_eq_gate, get_overall_level_eq_gate,
      levelPct_bronze, levelPct_silver, levelPct_gold, levelPct_platinum]
    exact gate_mono _ _ _ _ _ _ _ _
      (le_refl _) (le_refl _) (scoreOfChecks_pct_mono _ i) (le_refl _)
  · rw [get_overall_level_eq_gate, get_overall_level_eq_gate,
      levelPct_bronze, levelPct_silver, levelPct_gold, levelPct_platinum]
    exact gate_mono _ _ _ _ _ _ _ _
      (le_refl _) (le_refl _) (le_refl _) (scoreOfChecks_pct_mono _ i)

end RSRChecker
